import Mathlib

/-!
Verification of the observability core of the workflow-monitoring repository:
src/monitoring/logger.py (WorkflowLogger), src/monitoring/dashboard.py
(WorkflowMonitor) and the parts of src/cloud/s3_manager.py (S3Manager) that
the health check depends on.  The Python code is shallowly embedded: pure
computations become Lean functions, logging side effects become explicit
lists of emitted records, file-system side effects become explicit lists of
effect values, and Python exceptions become Except values carrying the
exception kind and message.  Machine floats are idealised as rationals; the
Python built-in round (round half to even) is modelled
exactly by roundHalfEven below.
-/

namespace WorkflowObs

/-- Python logging severity levels used by the code: DEBUG, INFO, WARNING,
ERROR (logger.py uses exactly these four). -/
inductive Level
| debug
| info
| warning
| error
deriving DecidableEq, Repr

/-- Numeric value of a level, as in the Python logging module
(DEBUG=10, INFO=20, WARNING=30, ERROR=40). -/
def Level.toNat : Level → Nat
| .debug => 10
| .info => 20
| .warning => 30
| .error => 40

instance : LE Level := ⟨fun a b => a.toNat ≤ b.toNat⟩

instance (a b : Level) : Decidable (a ≤ b) :=
inferInstanceAs (Decidable (a.toNat ≤ b.toNat))

/-- A Python exception value, reduced to its class name and its message
(str(e) renders the message). -/
structure PyExc where
  kind : String
  message : String
deriving DecidableEq, Repr

/-- Model of str(e) for an exception: its message text. -/
def PyExc.str (e : PyExc) : String := e.message

/-- The message part of a structured record.  Each constructor corresponds to
one message template in the source, carrying the data interpolated into it:
- startingOp op:                 logger.py line 140, "Starting: {op}"
- completedOp op dur:            logger.py line 145, "Completed: {op} ({dur:.2f}s)"
- failedOp op dur errText:       logger.py line 148, "Failed: {op} ({dur:.2f}s) - {str(e)}"
- metricMsg name value unit tags: logger.py line 159, "METRIC: {name}={value}{unit}",
  with the metric data dict passed as context kwargs
- thresholdExceeded op dur thr:  dashboard.py line 52, "Performance threshold
  exceeded: {op}" with duration and threshold kwargs
- errorMsg errType errMessage:   dashboard.py line 97, "Error: {error_type}",
  with the error data dict as context kwargs
- criticalMsg errType errMessage: dashboard.py line 101,
  "CRITICAL: {error_type} - {error_message}" (the distinct critical marker)
- startedMonitoring run sha:     dashboard.py line 33
- healthCheckCompleted:          dashboard.py line 85
- summaryGenerated file:         dashboard.py line 125, with the file path kwarg -/
inductive Message
| startingOp (op : String)
| completedOp (op : String) (durationSeconds : ℚ)
| failedOp (op : String) (durationSeconds : ℚ) (errText : String)
| metricMsg (name : String) (value : ℚ) (unit : String) (tags : List (String × String))
| thresholdExceeded (op : String) (durationSeconds : ℚ) (threshold : ℚ)
| errorMsg (errType : String) (errMessage : String)
| criticalMsg (errType : String) (errMessage : String)
| startedMonitoring (run : String) (sha : String)
| healthCheckCompleted
| summaryGenerated (file : String)
deriving DecidableEq, Repr

/-- One structured log record: the severity it was logged at and the message
(with its interpolated data). -/
structure LogRecord where
  level : Level
  msg : Message
deriving DecidableEq, Repr

/-- logger.info(message, ...) : one record at INFO level
(logger.py lines 112-116). -/
def logInfo (m : Message) : LogRecord := { level := Level.info, msg := m }

/-- logger.error(message, ...) : one record at ERROR level
(logger.py lines 118-122). -/
def logError (m : Message) : LogRecord := { level := Level.error, msg := m }

/-- logger.warning(message, ...) : one record at WARNING level
(logger.py lines 124-128). -/
def logWarning (m : Message) : LogRecord := { level := Level.warning, msg := m }

/-- logger.debug(message, ...) : one record at DEBUG level
(logger.py lines 130-134). -/
def logDebug (m : Message) : LogRecord := { level := Level.debug, msg := m }

/-- WorkflowLogger.metric (logger.py lines 151-159): renders the metric data
and logs it at INFO level. -/
def metric (name : String) (value : ℚ) (unit : String) (tags : List (String × String)) :
    LogRecord :=
  logInfo (Message.metricMsg name value unit tags)

/-- WorkflowLogger.timer (logger.py lines 136-149), the Span primitive.
The wrapped work is a value of Except PyExc A: Except.ok models normal
completion, Except.error models a raised exception.  elapsed is the
duration measured between the two time.time() calls.  The result is the
list of emitted records paired with what the block does next: .ok a when
the with-block completes and the value flows on, .error e when the same
exception is re-raised by the bare raise statement. -/
def timer {A : Type} (op : String) (elapsed : ℚ) (work : Except PyExc A) :
    List LogRecord × Except PyExc A :=
  match work with
  | .ok a =>
      ([logInfo (Message.startingOp op), logInfo (Message.completedOp op elapsed)],
       Except.ok a)
  | .error e =>
      ([logInfo (Message.startingOp op), logError (Message.failedOp op elapsed e.str)],
       Except.error e)

/-- True for the record a Span emits on entry. -/
def Message.isStart : Message → Bool
| .startingOp _ => true
| _ => false

/-- True for the success end record of a Span. -/
def Message.isSuccessEnd : Message → Bool
| .completedOp _ _ => true
| _ => false

/-- True for the failure end record of a Span. -/
def Message.isFailureEnd : Message → Bool
| .failedOp _ _ _ => true
| _ => false

/-- True for a metric record (logger.py line 159 template). -/
def Message.isMetric : Message → Bool
| .metricMsg _ _ _ _ => true
| _ => false

/-- True for the performance-threshold warning record (dashboard.py line 52). -/
def Message.isThresholdWarning : Message → Bool
| .thresholdExceeded _ _ _ => true
| _ => false

/-- Round a rational to the nearest integer, ties to the even integer: the
rounding rule of the Python built-in round. -/
def roundHalfEven (q : ℚ) : ℤ :=
  if q - ⌊q⌋ < 1/2 then ⌊q⌋
  else if 1/2 < q - ⌊q⌋ then ⌊q⌋ + 1
  else if ⌊q⌋ % 2 = 0 then ⌊q⌋ else ⌊q⌋ + 1

/-- Python round(q, 2): round half to even at two decimal places. -/
def pyRound2 (q : ℚ) : ℚ := (roundHalfEven (q * 100) : ℚ) / 100

/-- Python round(q, 1): round half to even at one decimal place
(used for free_percent in the disk-space check). -/
def pyRound1 (q : ℚ) : ℚ := (roundHalfEven (q * 10) : ℚ) / 10

/-!
Sink fan-out (logger.py lines 33-110).  WorkflowLogger.__init__ sets the
logger level to DEBUG and attaches three handlers:
- a console StreamHandler at level INFO  (line 49 / 82),
- a file FileHandler at level DEBUG     (line 62 / 95),
- a JSON FileHandler at level INFO      (line 75 / 108).
A record reaches a handler exactly when it passes the logger level and the
handler level (the CPython logging dispatch rule).
-/

/-- One output destination with its minimum severity (handler.setLevel). -/
structure Handler where
  minLevel : Level
deriving DecidableEq, Repr

/-- The console handler: setLevel(logging.INFO), logger.py line 49. -/
def consoleHandler : Handler := { minLevel := Level.info }

/-- The plain-text file handler: setLevel(logging.DEBUG), logger.py line 62. -/
def fileHandler : Handler := { minLevel := Level.debug }

/-- The JSON-lines file handler: setLevel(logging.INFO), logger.py line 75. -/
def jsonHandler : Handler := { minLevel := Level.info }

/-- self.logger.setLevel(logging.DEBUG), logger.py line 39: the severity
floor applied before any handler sees a record. -/
def loggerFloor : Level := Level.debug

/-- Whether the logger-level filter admits a record. -/
def loggerAdmits (r : LogRecord) : Bool := decide (loggerFloor ≤ r.level)

/-- Whether a handler-level filter admits a record. -/
def Handler.admits (h : Handler) (r : LogRecord) : Bool := decide (h.minLevel ≤ r.level)

/-- What one handler receives from a sequence of log calls, in call order:
each record is dispatched when it passes first the logger filter, then the
handler filter (CPython logging callHandlers plus Handler.handle). -/
def fanOut (h : Handler) : List LogRecord → List LogRecord
| [] => []
| r :: rs => (if loggerAdmits r && h.admits r then [r] else []) ++ fanOut h rs

/-!
Dashboard embedding (src/monitoring/dashboard.py).  WorkflowMonitor holds
workflow_name, workflow_run, commit_sha and start_time; its methods emit
records through the logger and effects on the file system.  External
collaborators (shutil.disk_usage, the existence test on the logs directory, the aws
subprocess) are passed in as an explicit environment value.
-/

/-- The result triple of shutil.disk_usage on the root volume: total, used and free bytes
(dashboard.py line 64). -/
structure DiskUsage where
  total : ℚ
  used : ℚ
  free : ℚ
deriving DecidableEq, Repr

/-- Possible outcomes of subprocess.run of the aws executable with check=True
in S3Manager.run_aws_command (s3_manager.py lines 28-33): normal exit,
CalledProcessError (non-zero exit under check=True), FileNotFoundError
(missing executable), or any other raised exception. -/
inductive SubprocessOutcome
| ok (stdout : String)
| calledProcessError (stderr : String)
| fileNotFound
| otherExc (e : PyExc)
deriving DecidableEq, Repr

deriving instance DecidableEq for Except

/-- The external world health_check touches: the disk-usage query (which may
itself raise), the logs-directory existence test, the aws subprocess call,
and the wall-clock timestamp string. -/
structure Env where
  diskUsage : Except PyExc DiskUsage
  logsDirExists : Bool
  awsCall : SubprocessOutcome
  timestamp : String
deriving DecidableEq, Repr

/-- S3Manager.run_aws_command (s3_manager.py lines 25-38): returns
(True, stdout.strip()) on success, (False, stderr.strip()) on
CalledProcessError, (False, "AWS CLI not installed") on FileNotFoundError;
any other exception is not caught by the two except clauses and propagates. -/
def run_aws_command (outcome : SubprocessOutcome) : Except PyExc (Bool × String) :=
  match outcome with
  | .ok out => Except.ok (true, out.trim)
  | .calledProcessError err => Except.ok (false, err.trim)
  | .fileNotFound => Except.ok (false, "AWS CLI not installed")
  | .otherExc e => Except.error e

/-- S3Manager.check_aws_configured (s3_manager.py lines 40-43): the success
flag of run_aws_command for sts get-caller-identity. -/
def check_aws_configured (outcome : SubprocessOutcome) : Except PyExc Bool :=
  match run_aws_command outcome with
  | Except.ok p => Except.ok p.1
  | Except.error e => Except.error e

/-- The three-valued per-check status used by health_check. -/
inductive CheckStatus
| healthy
| warning
| degraded
deriving DecidableEq, Repr

/-- The non-status payload of each check entry: free_percent for disk_space,
the exists flag for logs_directory, the configured flag for aws_configured. -/
inductive CheckDetail
| freePercent (v : ℚ)
| dirExists (b : Bool)
| configured (b : Bool)
deriving DecidableEq, Repr

/-- One entry of the checks mapping in the health dict. -/
structure Check where
  name : String
  status : CheckStatus
  detail : CheckDetail
deriving DecidableEq, Repr

/-- The health dict built by health_check: its exact top-level keys are
timestamp, workflow_run and checks (dashboard.py lines 57-61); there is no
overall roll-up field. -/
structure Health where
  timestamp : String
  workflow_run : Option String
  checks : List Check
deriving DecidableEq, Repr

/-- WorkflowMonitor.health_check (dashboard.py lines 55-86).
The shutil.disk_usage call is not wrapped in any try block, so an exception
from it propagates out of health_check; integer division free / total raises
ZeroDivisionError when total is zero; the aws probe propagates whatever
run_aws_command does not catch.  On success the snapshot holds exactly the
three checks in source order and one INFO record is logged. -/
def health_check (workflow_run : Option String) (env : Env) :
    Except PyExc (Health × List LogRecord) :=
  match env.diskUsage with
  | Except.error e => Except.error e
  | Except.ok du =>
      if du.total = 0 then
        Except.error { kind := "ZeroDivisionError", message := "division by zero" }
      else
        let freePercent := du.free / du.total * 100
        let diskCheck : Check :=
          { name := "disk_space",
            status := if freePercent > 10 then CheckStatus.healthy else CheckStatus.warning,
            detail := CheckDetail.freePercent (pyRound1 freePercent) }
        let logsCheck : Check :=
          { name := "logs_directory",
            status := if env.logsDirExists then CheckStatus.healthy else CheckStatus.warning,
            detail := CheckDetail.dirExists env.logsDirExists }
        match check_aws_configured env.awsCall with
        | Except.error e => Except.error e
        | Except.ok s3ok =>
            let awsCheck : Check :=
              { name := "aws_configured",
                status := if s3ok then CheckStatus.healthy else CheckStatus.degraded,
                detail := CheckDetail.configured s3ok }
            Except.ok
              ({ timestamp := env.timestamp, workflow_run := workflow_run,
                 checks := [diskCheck, logsCheck, awsCheck] },
               [logInfo Message.healthCheckCompleted])

/-- The threshold table defined inside monitor_operation
(dashboard.py lines 43-48). -/
def thresholds : List (String × ℚ) :=
  [("ollama_query", 60), ("model_download", 300), ("test_execution", 30), ("s3_upload", 60)]

/-- thresholds.get(operation_name, 120), dashboard.py line 50. -/
def thresholdFor (op : String) : ℚ := (thresholds.lookup op).getD 120

/-- WorkflowMonitor.monitor_operation (dashboard.py lines 37-53): two metric
records (duration rounded to two decimals with unit s, then the 1/0 status
flag), followed by a warning record exactly when duration > threshold. -/
def monitor_operation (op : String) (duration : ℚ) (success : Bool) : List LogRecord :=
  [metric (op ++ "_duration") (pyRound2 duration) "s" [],
   metric (op ++ "_status") (if success then 1 else 0) "" []]
  ++ (if duration > thresholdFor op then
        [logWarning (Message.thresholdExceeded op duration (thresholdFor op))]
      else [])

/-- The classification decision embedded in monitor_operation (dashboard.py
lines 50-53): the threshold table entry with default 120 and the within-budget
flag, which holds exactly when the warning branch test duration > threshold
is false. -/
def classify (op : String) (duration : ℚ) : Bool × ℚ :=
  (decide (¬ thresholdFor op < duration), thresholdFor op)

/-- The fixed critical allow-list of WorkflowMonitor.track_error
(dashboard.py line 99). -/
def critical_errors : List String := ["ollama_service_down", "model_download_failed"]

/-- WorkflowMonitor.track_error (dashboard.py lines 88-101): always one
ERROR record with the error data; a second ERROR record with the CRITICAL
prefix exactly when error_type is in the allow-list. -/
def track_error (errType : String) (errMessage : String) : List LogRecord :=
  [logError (Message.errorMsg errType errMessage)]
  ++ (if critical_errors.contains errType then
        [logError (Message.criticalMsg errType errMessage)]
      else [])

/-- The mutable identity of a WorkflowMonitor: workflow_name and start_time
set in __init__ (dashboard.py lines 20-26), workflow_run and commit_sha set
by start_monitoring (lines 28-31, None before that).  start_time is the
construction instant in seconds. -/
structure MonitorState where
  workflow_name : String
  workflow_run : Option String
  commit_sha : Option String
  start_time : ℚ
deriving DecidableEq, Repr

/-- A JSON-serialisable value appearing in the summary dict. -/
inductive SVal
| s (v : String)
| optS (v : Option String)
| q (v : ℚ)
| health (h : Health)
deriving DecidableEq, Repr

/-- The summary dict of generate_summary (dashboard.py lines 108-116), as
the ordered key-value list json.dump serialises: exactly these seven keys,
with duration_seconds = round((end_time - start_time).total_seconds(), 2). -/
def summaryPairs (st : MonitorState) (end_time : ℚ) (h : Health) : List (String × SVal) :=
  [("workflow_name", SVal.s st.workflow_name),
   ("workflow_run", SVal.optS st.workflow_run),
   ("commit_sha", SVal.optS st.commit_sha),
   ("start_time", SVal.q st.start_time),
   ("end_time", SVal.q end_time),
   ("duration_seconds", SVal.q (pyRound2 (end_time - st.start_time))),
   ("health", SVal.health h)]

/-- File-system side effects of generate_summary. -/
inductive FsEffect
| mkdirAll (path : String)
| writeJson (path : String) (content : List (String × SVal))
deriving DecidableEq, Repr

/-- WorkflowMonitor.generate_summary (dashboard.py lines 103-126): captures
end_time, builds the summary dict (running health_check while doing so),
creates result_dir with parents and exist_ok, writes the dict as JSON to
result_dir/monitoring_summary.json, logs one INFO record naming the file,
and returns the summary.  An exception out of health_check propagates. -/
def generate_summary (st : MonitorState) (env : Env) (end_time : ℚ) (result_dir : String) :
    Except PyExc (List (String × SVal) × List FsEffect × List LogRecord) :=
  match health_check st.workflow_run env with
  | Except.error e => Except.error e
  | Except.ok (h, hlogs) =>
      let summary := summaryPairs st end_time h
      let file := result_dir ++ "/monitoring_summary.json"
      Except.ok (summary,
        [FsEffect.mkdirAll result_dir, FsEffect.writeJson file summary],
        hlogs ++ [logInfo (Message.summaryGenerated file)])

/-- A concrete healthy environment: 40 percent free disk, logs directory
present, aws subprocess succeeding. -/
def envOK : Env :=
  { diskUsage := Except.ok { total := 100, used := 60, free := 40 },
    logsDirExists := true,
    awsCall := SubprocessOutcome.ok "acct",
    timestamp := "2024-01-01T00:00:00" }

/-- A concrete monitor state: run 999 at commit abc123, started at
instant 2. -/
def sampleState : MonitorState :=
  { workflow_name := "test-workflow", workflow_run := some "999",
    commit_sha := some "abc123", start_time := 2 }

/-!
Helper lemmas about the rounding model and the sink fan-out.
-/

lemma roundHalfEven_ge_floor (q : ℚ) : ⌊q⌋ ≤ roundHalfEven q := by
  unfold roundHalfEven
  split_ifs <;> omega

lemma roundHalfEven_le_floor_add_one (q : ℚ) : roundHalfEven q ≤ ⌊q⌋ + 1 := by
  unfold roundHalfEven
  split_ifs <;> omega

lemma abs_roundHalfEven_sub_le (q : ℚ) : |((roundHalfEven q : ℤ) : ℚ) - q| ≤ 1/2 := by
  have h0 : (0 : ℚ) ≤ q - ⌊q⌋ := by
    have := Int.floor_le q
    linarith
  have h1 : q - ⌊q⌋ < 1 := by
    have := Int.lt_floor_add_one q
    linarith
  unfold roundHalfEven
  split_ifs with a b c
  · rw [abs_le]
    constructor <;> linarith
  · rw [abs_le]
    constructor <;> push_cast <;> linarith
  · have hb : q - ⌊q⌋ = 1/2 := by linarith
    rw [abs_le]
    constructor <;> linarith
  · have hb : q - ⌊q⌋ = 1/2 := by linarith
    rw [abs_le]
    constructor <;> push_cast <;> linarith

lemma pyRound2_nonneg {q : ℚ} (h : 0 ≤ q) : 0 ≤ pyRound2 q := by
  unfold pyRound2
  have h100 : (0 : ℚ) ≤ q * 100 := by linarith
  have hfl : (0 : ℤ) ≤ ⌊q * 100⌋ := Int.floor_nonneg.mpr h100
  have hr : (0 : ℤ) ≤ roundHalfEven (q * 100) :=
    le_trans hfl (roundHalfEven_ge_floor _)
  positivity

lemma abs_pyRound2_sub_le (q : ℚ) : |pyRound2 q - q| ≤ 1/200 := by
  unfold pyRound2
  have h := abs_roundHalfEven_sub_le (q * 100)
  have : (roundHalfEven (q * 100) : ℚ) / 100 - q =
      (((roundHalfEven (q * 100) : ℤ) : ℚ) - q * 100) / 100 := by ring
  rw [this, abs_div]
  rw [abs_of_pos (by norm_num : (0:ℚ) < 100)]
  linarith [h]

lemma health_check_ok (run : Option String) (env : Env) (du : DiskUsage) (s3ok : Bool)
    (hdu : env.diskUsage = Except.ok du) (hT : ¬ du.total = 0)
    (haws : check_aws_configured env.awsCall = Except.ok s3ok) :
    health_check run env = Except.ok
      ({ timestamp := env.timestamp, workflow_run := run,
         checks := [
           { name := "disk_space",
             status := if du.free / du.total * 100 > 10 then CheckStatus.healthy
               else CheckStatus.warning,
             detail := CheckDetail.freePercent (pyRound1 (du.free / du.total * 100)) },
           { name := "logs_directory",
             status := if env.logsDirExists then CheckStatus.healthy
               else CheckStatus.warning,
             detail := CheckDetail.dirExists env.logsDirExists },
           { name := "aws_configured",
             status := if s3ok then CheckStatus.healthy else CheckStatus.degraded,
             detail := CheckDetail.configured s3ok } ] },
       [logInfo Message.healthCheckCompleted]) := by
  unfold health_check
  rw [hdu]
  dsimp only
  rw [if_neg hT, haws]

lemma generate_summary_ok (st : MonitorState) (env : Env) (end_time : ℚ)
    (result_dir : String) (du : DiskUsage) (s3ok : Bool)
    (hdu : env.diskUsage = Except.ok du) (hT : ¬ du.total = 0)
    (haws : check_aws_configured env.awsCall = Except.ok s3ok) :
    ∃ h : Health,
      health_check st.workflow_run env =
        Except.ok (h, [logInfo Message.healthCheckCompleted])
      ∧ generate_summary st env end_time result_dir =
          Except.ok (summaryPairs st end_time h,
            [FsEffect.mkdirAll result_dir,
             FsEffect.writeJson (result_dir ++ "/monitoring_summary.json")
               (summaryPairs st end_time h)],
            [logInfo Message.healthCheckCompleted,
             logInfo (Message.summaryGenerated
               (result_dir ++ "/monitoring_summary.json"))]) := by
  refine ⟨_, health_check_ok st.workflow_run env du s3ok hdu hT haws, ?_⟩
  unfold generate_summary
  rw [health_check_ok st.workflow_run env du s3ok hdu hT haws]
  exact rfl

lemma summaryPairs_lookup_duration (st : MonitorState) (end_time : ℚ) (h : Health) :
    (summaryPairs st end_time h).lookup "duration_seconds" =
      some (SVal.q (pyRound2 (end_time - st.start_time))) := by
  simp [summaryPairs, List.lookup]

lemma loggerAdmits_eq_true (r : LogRecord) : loggerAdmits r = true := by
  unfold loggerAdmits loggerFloor
  cases r.level <;> decide

lemma fanOut_eq_filter (h : Handler) (calls : List LogRecord) :
    fanOut h calls = calls.filter (fun r => h.admits r) := by
  induction calls with
  | nil => rfl
  | cons r rs ih =>
      unfold fanOut
      rw [loggerAdmits_eq_true, ih]
      by_cases hr : h.admits r = true
      · simp [List.filter_cons, hr]
      · simp [List.filter_cons, hr]

/-!
Claim theorems.
-/

/-- C1: for every Span (the timer context manager) and every wrapped work,
whether the work completes normally or raises, exactly one start record is
emitted and exactly one end record is emitted; the end record is the
success record exactly when the work completed and the failure record
exactly when it raised (never both, never neither); the result of the work
flows back to the caller unchanged. -/
theorem timer_one_start_one_end {A : Type} (op : String) (elapsed : ℚ)
    (work : Except PyExc A) :
    ((timer op elapsed work).1.countP (fun r => r.msg.isStart) = 1)
    ∧ ((timer op elapsed work).1.countP
        (fun r => r.msg.isSuccessEnd || r.msg.isFailureEnd) = 1)
    ∧ ((timer op elapsed work).1.countP (fun r => r.msg.isSuccessEnd) =
        match work with | .ok _ => 1 | .error _ => 0)
    ∧ ((timer op elapsed work).1.countP (fun r => r.msg.isFailureEnd) =
        match work with | .ok _ => 0 | .error _ => 1)
    ∧ (timer op elapsed work).2 = work := by
  cases work <;>
    simp [timer, logInfo, logError, Message.isStart, Message.isSuccessEnd,
      Message.isFailureEnd, List.countP_cons, List.countP_nil]

/-- C7: a Span around failing work emits the start record and then exactly
one ERROR-level end record carrying the elapsed seconds and the failure
text str(e), and re-raises the very same exception value — same kind and
same message — to the caller; the error is never swallowed or replaced. -/
theorem timer_failure_reraised {A : Type} (op : String) (elapsed : ℚ) (e : PyExc) :
    timer op elapsed (Except.error e : Except PyExc A) =
      ([logInfo (Message.startingOp op),
        logError (Message.failedOp op elapsed e.str)],
       Except.error e) := rfl

/-- C6: for every sequence of log calls on one WorkflowLogger, each handler
receives exactly the subset of records whose level is at or above that
minimum level of that handler, in call order (the received list is a sublist of
the call list); the console handler minimum is INFO, the detailed file
handler minimum is DEBUG, and the JSON-lines handler minimum is INFO. -/
theorem sinks_receive_level_filtered_subsequences (calls : List LogRecord) :
    fanOut consoleHandler calls =
      calls.filter (fun r => decide (Level.info ≤ r.level))
    ∧ fanOut fileHandler calls =
      calls.filter (fun r => decide (Level.debug ≤ r.level))
    ∧ fanOut jsonHandler calls =
      calls.filter (fun r => decide (Level.info ≤ r.level))
    ∧ (fanOut consoleHandler calls).Sublist calls
    ∧ (fanOut fileHandler calls).Sublist calls
    ∧ (fanOut jsonHandler calls).Sublist calls := by
  refine ⟨fanOut_eq_filter _ _, fanOut_eq_filter _ _, fanOut_eq_filter _ _, ?_, ?_, ?_⟩ <;>
    · rw [fanOut_eq_filter]
      exact List.filter_sublist _

/-- C2 counterexample: the claim as stated is false on the code.  The fixed
critical allow-list in track_error is exactly
["ollama_service_down", "model_download_failed"]; it does not contain
"service unreachable", so track_error("service unreachable", "x") emits
exactly one error-level record, not the two the claim asserts. -/
theorem track_error_service_unreachable_single_record :
    ¬ ((track_error "service unreachable" "x").countP
        (fun r => r.level == Level.error) = 2) := by decide

/-- C2 amended: every track_error call emits exactly one error-level record
— the normal record first — except when the error kind is in the fixed
allow-list ["ollama_service_down", "model_download_failed"], in which case
exactly two error-level records are emitted and the second is the distinct
CRITICAL-marked record; in particular track_error("ollama_service_down",
"x") produces two error-level records and track_error("minor_glitch", "x")
produces exactly one. -/
theorem track_error_escalation (errType errMessage : String) :
    ((track_error errType errMessage).countP (fun r => r.level == Level.error) =
      if critical_errors.contains errType then 2 else 1)
    ∧ (track_error errType errMessage).head? =
        some (logError (Message.errorMsg errType errMessage))
    ∧ (track_error errType errMessage).drop 1 =
        (if critical_errors.contains errType then
          [logError (Message.criticalMsg errType errMessage)]
        else [])
    ∧ ((track_error "ollama_service_down" "x").countP
        (fun r => r.level == Level.error) = 2)
    ∧ ((track_error "minor_glitch" "x").countP
        (fun r => r.level == Level.error) = 1) := by
  refine ⟨?_, ?_, ?_, by decide, by decide⟩ <;>
    · unfold track_error
      by_cases hc : errType ∈ critical_errors <;>
        simp [hc, logError, List.countP_cons, List.countP_nil]

/-- C3: the threshold classification inside monitor_operation takes the
table entry for the operation name and falls back to the default 120 when
the name is absent; the operation is within budget exactly when
duration ≤ threshold, and monitor_operation emits a warning record exactly
when the budget is exceeded; classify("model_download", 301) yields
(withinBudget = false, thresholdUsed = 300) from the table entry 300, and
classify("unknown_op", 50) yields (withinBudget = true,
thresholdUsed = 120) from the default. -/
theorem classify_threshold_policy (op : String) (d : ℚ) (success : Bool) :
    classify op d = (decide (d ≤ thresholdFor op), (thresholds.lookup op).getD 120)
    ∧ ((monitor_operation op d success).countP
        (fun r => r.msg.isThresholdWarning) =
        if d ≤ thresholdFor op then 0 else 1)
    ∧ classify "model_download" 301 = (false, 300)
    ∧ thresholds.lookup "model_download" = some 300
    ∧ classify "unknown_op" 50 = (true, 120)
    ∧ thresholds.lookup "unknown_op" = none := by
  refine ⟨?_, ?_, by decide, by decide, by decide, by decide⟩
  · unfold classify thresholdFor
    rw [Prod.mk.injEq]
    exact ⟨decide_eq_decide.mpr not_lt, rfl⟩
  · unfold monitor_operation
    by_cases hd : d ≤ thresholdFor op
    · have hlt : ¬ thresholdFor op < d := not_lt.mpr hd
      simp [hd, hlt, metric, logInfo, Message.isThresholdWarning,
        List.countP_cons, List.countP_nil]
    · have hlt : thresholdFor op < d := not_le.mp hd
      simp [hd, hlt, metric, logInfo, logWarning, Message.isThresholdWarning,
        List.countP_cons, List.countP_nil]

/-- C10: every monitor_operation call emits exactly two metric records,
whatever the threshold outcome: first a metric named
operationName ++ "_duration" whose value is the duration rounded to two
decimal places with unit "s", then a metric named
operationName ++ "_status" whose value is 1 when success is true and 0 when
it is false. -/
theorem monitor_operation_two_metrics (op : String) (d : ℚ) (success : Bool) :
    (monitor_operation op d success).filter (fun r => r.msg.isMetric) =
      [metric (op ++ "_duration") (pyRound2 d) "s" [],
       metric (op ++ "_status") (if success then 1 else 0) "" []]
    ∧ (monitor_operation op d success).countP (fun r => r.msg.isMetric) = 2 := by
  constructor <;>
    · unfold monitor_operation
      by_cases hd : d > thresholdFor op <;>
        simp [hd, metric, logInfo, logWarning, Message.isMetric,
          List.filter_cons, List.countP_cons, List.countP_nil]

/-- C4 counterexample: the claim as stated is false on the code.  The
shutil.disk_usage call in health_check sits in no try block (dashboard.py
line 64), so when the storage free-space query itself raises, health_check
propagates the exception to its caller instead of reporting a degraded
check with the error text as detail. -/
theorem health_check_raises_on_disk_failure :
    health_check none
      { diskUsage := Except.error { kind := "OSError", message := "boom" },
        logsDirExists := true,
        awsCall := SubprocessOutcome.ok "acct",
        timestamp := "t" } =
      Except.error { kind := "OSError", message := "boom" } := rfl

/-- C4 amended: health_check does not raise when the reachability
subprocess fails with a non-zero exit (CalledProcessError) or a missing
executable (FileNotFoundError) — in both cases the check completes and the
reachability probe is reported with status degraded — but an exception
raised by the storage free-space query propagates out of health_check, as
does any subprocess exception other than the two caught kinds; a failed
storage query is never reported as a degraded check. -/
theorem health_check_partial_fault_policy (run : Option String) (du : DiskUsage)
    (lde : Bool) (ts errText : String) (e : PyExc) (hT : ¬ du.total = 0) :
    (∃ h : Health,
      health_check run
        { diskUsage := Except.ok du, logsDirExists := lde,
          awsCall := SubprocessOutcome.calledProcessError errText, timestamp := ts } =
        Except.ok (h, [logInfo Message.healthCheckCompleted])
      ∧ (h.checks.map Check.status).getLast? = some CheckStatus.degraded)
    ∧ (∃ h : Health,
      health_check run
        { diskUsage := Except.ok du, logsDirExists := lde,
          awsCall := SubprocessOutcome.fileNotFound, timestamp := ts } =
        Except.ok (h, [logInfo Message.healthCheckCompleted])
      ∧ (h.checks.map Check.status).getLast? = some CheckStatus.degraded)
    ∧ health_check run
        { diskUsage := Except.error e, logsDirExists := lde,
          awsCall := SubprocessOutcome.ok "ignored", timestamp := ts } =
        Except.error e
    ∧ health_check run
        { diskUsage := Except.ok du, logsDirExists := lde,
          awsCall := SubprocessOutcome.otherExc e, timestamp := ts } =
        Except.error e := by
  refine ⟨⟨_, health_check_ok run _ du false rfl hT rfl, rfl⟩,
          ⟨_, health_check_ok run _ du false rfl hT rfl, rfl⟩, rfl, ?_⟩
  unfold health_check
  dsimp only
  rw [if_neg hT]
  exact rfl

/-- C4 witness: the amended theorem applied at a concrete disk state and a
concrete disk-query exception. -/
theorem health_check_partial_fault_policy_witness :
    ¬ ({ total := 100, used := 60, free := 40 } : DiskUsage).total = 0
    ∧ health_check none
        { diskUsage := Except.error { kind := "OSError", message := "no space info" },
          logsDirExists := true,
          awsCall := SubprocessOutcome.ok "ignored",
          timestamp := "t" } =
      Except.error { kind := "OSError", message := "no space info" } :=
  ⟨by decide,
   (health_check_partial_fault_policy none { total := 100, used := 60, free := 40 }
      true "t" "denied" { kind := "OSError", message := "no space info" }
      (by decide)).2.2.1⟩

/-- C5: whenever the three probes themselves complete, the snapshot
health_check returns contains exactly three checks, named disk_space,
logs_directory and aws_configured in that order, and no other data beyond
the timestamp and run identifier (the Health shape has no overall roll-up
field); disk_space is healthy exactly when the free percentage exceeds 10
and warning otherwise, logs_directory is healthy exactly when the logs
directory exists and warning otherwise, and aws_configured is healthy
exactly when the reachability probe returned true and degraded otherwise. -/
theorem health_check_three_probes (run : Option String) (env : Env)
    (du : DiskUsage) (s3ok : Bool)
    (hdu : env.diskUsage = Except.ok du) (hT : ¬ du.total = 0)
    (haws : check_aws_configured env.awsCall = Except.ok s3ok) :
    ∃ h : Health,
      health_check run env = Except.ok (h, [logInfo Message.healthCheckCompleted])
      ∧ h.checks.map Check.name = ["disk_space", "logs_directory", "aws_configured"]
      ∧ h.checks.length = 3
      ∧ h.checks.map Check.status =
          [if du.free / du.total * 100 > 10 then CheckStatus.healthy
            else CheckStatus.warning,
           if env.logsDirExists then CheckStatus.healthy else CheckStatus.warning,
           if s3ok then CheckStatus.healthy else CheckStatus.degraded]
      ∧ h.timestamp = env.timestamp
      ∧ h.workflow_run = run :=
  ⟨_, health_check_ok run env du s3ok hdu hT haws, rfl, rfl, rfl, rfl, rfl⟩

/-- C5 witness: the theorem applied to the concrete healthy environment. -/
theorem health_check_three_probes_witness :
    envOK.diskUsage = Except.ok { total := 100, used := 60, free := 40 }
    ∧ ¬ ({ total := 100, used := 60, free := 40 } : DiskUsage).total = 0
    ∧ check_aws_configured envOK.awsCall = Except.ok true
    ∧ ∃ h : Health,
        health_check (some "999") envOK =
          Except.ok (h, [logInfo Message.healthCheckCompleted])
        ∧ h.checks.map Check.name = ["disk_space", "logs_directory", "aws_configured"]
        ∧ h.checks.length = 3
        ∧ h.checks.map Check.status =
            [if ({ total := 100, used := 60, free := 40 } : DiskUsage).free /
                ({ total := 100, used := 60, free := 40 } : DiskUsage).total * 100 > 10
              then CheckStatus.healthy else CheckStatus.warning,
             if envOK.logsDirExists then CheckStatus.healthy else CheckStatus.warning,
             if true then CheckStatus.healthy else CheckStatus.degraded]
        ∧ h.timestamp = envOK.timestamp
        ∧ h.workflow_run = some "999" :=
  ⟨rfl, by decide, rfl,
   health_check_three_probes (some "999") envOK
     { total := 100, used := 60, free := 40 } true rfl (by decide) rfl⟩

/-- C8: whenever the embedded health check completes, generate_summary
creates the result directory (parents, exist_ok), writes the summary as
JSON to resultDirectory/monitoring_summary.json, emits an INFO record
naming that file after the health-check record, and returns the written
summary; the summary carries exactly the seven keys workflow_name,
workflow_run, commit_sha, start_time, end_time, duration_seconds and
health, in that order. -/
theorem generate_summary_shape (st : MonitorState) (env : Env) (end_time : ℚ)
    (result_dir : String) (du : DiskUsage) (s3ok : Bool)
    (hdu : env.diskUsage = Except.ok du) (hT : ¬ du.total = 0)
    (haws : check_aws_configured env.awsCall = Except.ok s3ok) :
    ∃ h : Health,
      health_check st.workflow_run env =
        Except.ok (h, [logInfo Message.healthCheckCompleted])
      ∧ generate_summary st env end_time result_dir =
          Except.ok (summaryPairs st end_time h,
            [FsEffect.mkdirAll result_dir,
             FsEffect.writeJson (result_dir ++ "/monitoring_summary.json")
               (summaryPairs st end_time h)],
            [logInfo Message.healthCheckCompleted,
             logInfo (Message.summaryGenerated
               (result_dir ++ "/monitoring_summary.json"))])
      ∧ (summaryPairs st end_time h).map Prod.fst =
          ["workflow_name", "workflow_run", "commit_sha", "start_time",
           "end_time", "duration_seconds", "health"] := by
  obtain ⟨h, hhc, hgen⟩ :=
    generate_summary_ok st env end_time result_dir du s3ok hdu hT haws
  exact ⟨h, hhc, hgen, rfl⟩

/-- C8 witness: the theorem applied to the concrete state and environment. -/
theorem generate_summary_shape_witness :
    envOK.diskUsage = Except.ok { total := 100, used := 60, free := 40 }
    ∧ ¬ ({ total := 100, used := 60, free := 40 } : DiskUsage).total = 0
    ∧ check_aws_configured envOK.awsCall = Except.ok true
    ∧ ∃ h : Health,
        health_check sampleState.workflow_run envOK =
          Except.ok (h, [logInfo Message.healthCheckCompleted])
        ∧ generate_summary sampleState envOK 5 "results" =
            Except.ok (summaryPairs sampleState 5 h,
              [FsEffect.mkdirAll "results",
               FsEffect.writeJson ("results" ++ "/monitoring_summary.json")
                 (summaryPairs sampleState 5 h)],
              [logInfo Message.healthCheckCompleted,
               logInfo (Message.summaryGenerated
                 ("results" ++ "/monitoring_summary.json"))])
        ∧ (summaryPairs sampleState 5 h).map Prod.fst =
            ["workflow_name", "workflow_run", "commit_sha", "start_time",
             "end_time", "duration_seconds", "health"] :=
  ⟨rfl, by decide, rfl,
   generate_summary_shape sampleState envOK 5 "results"
     { total := 100, used := 60, free := 40 } true rfl (by decide) rfl⟩

/-- C9: in every summary generate_summary returns, the duration_seconds
entry equals the difference end_time minus start_time rounded to two
decimal places, is nonnegative whenever the end instant is not before the
start instant, and differs from the exact difference by at most 1/200 (the
granularity of the two-decimal rounding the code stores). -/
theorem summary_duration_nonneg (st : MonitorState) (env : Env) (end_time : ℚ)
    (result_dir : String) (du : DiskUsage) (s3ok : Bool)
    (hdu : env.diskUsage = Except.ok du) (hT : ¬ du.total = 0)
    (haws : check_aws_configured env.awsCall = Except.ok s3ok)
    (hord : st.start_time ≤ end_time) :
    ∃ out : List (String × SVal) × List FsEffect × List LogRecord,
      generate_summary st env end_time result_dir = Except.ok out
      ∧ out.1.lookup "duration_seconds" =
          some (SVal.q (pyRound2 (end_time - st.start_time)))
      ∧ 0 ≤ pyRound2 (end_time - st.start_time)
      ∧ |pyRound2 (end_time - st.start_time) - (end_time - st.start_time)| ≤ 1/200 := by
  obtain ⟨h, hhc, hgen⟩ :=
    generate_summary_ok st env end_time result_dir du s3ok hdu hT haws
  exact ⟨_, hgen, summaryPairs_lookup_duration st end_time h,
    pyRound2_nonneg (by linarith), abs_pyRound2_sub_le _⟩

/-- C9 witness: the theorem applied at start instant 2 and end instant 5
in the concrete healthy environment. -/
theorem summary_duration_nonneg_witness :
    envOK.diskUsage = Except.ok { total := 100, used := 60, free := 40 }
    ∧ ¬ ({ total := 100, used := 60, free := 40 } : DiskUsage).total = 0
    ∧ check_aws_configured envOK.awsCall = Except.ok true
    ∧ sampleState.start_time ≤ (5 : ℚ)
    ∧ ∃ out : List (String × SVal) × List FsEffect × List LogRecord,
        generate_summary sampleState envOK 5 "results" = Except.ok out
        ∧ out.1.lookup "duration_seconds" =
            some (SVal.q (pyRound2 (5 - sampleState.start_time)))
        ∧ 0 ≤ pyRound2 (5 - sampleState.start_time)
        ∧ |pyRound2 (5 - sampleState.start_time) - (5 - sampleState.start_time)| ≤ 1/200 :=
  ⟨rfl, by decide, rfl, by decide,
   summary_duration_nonneg sampleState envOK 5 "results"
     { total := 100, used := 60, free := 40 } true rfl (by decide) rfl (by decide)⟩

end WorkflowObs
